import Mathlib

/-
Verification of the release script `scripts/deploy/deploy.py`.

The script is a linear sequence of shell invocations.  We embed one run of
the script as a pure function from an environment (command-line tag,
committed manifest, outcomes of the external commands, registry page
content) and the pre-run on-disk manifest content to a record of the
observable outcome: process exit code, which external steps were reached,
the manifest file content at the interesting program points, the computed
release data, and what was logged.

Modelling assumptions, each noted at its use site:
  - `git checkout resources/META-INF/plugin.xml` of the tracked manifest is
    assumed to succeed; its effect is to replace the on-disk manifest
    content with the committed content.
  - the upload credentials USERNAME and PASSWORD are assumed to be present
    in the process environment (their values influence nothing we verify).
  - an uncaught Python exception (CalledProcessError from
    subprocess.check_output, NameError) terminates the process with exit
    code 1.
  - `curl REPO | grep sha` succeeds exactly when the sha occurs as a
    substring of the fetched page (the sha is hexadecimal, so the grep
    pattern has no metacharacters).
-/

namespace Deploy

/-- Content of the manifest file `resources/META-INF/plugin.xml`: the text
of its `version` element (`none` when the element is absent) and the rest
of the document, which the script never touches. -/
structure PluginXml where
  version : Option String
  rest : String
deriving DecidableEq, Repr

/-- Channel constant `CHANNEL_STABLE` of the script. -/
def CHANNEL_STABLE : String := "Stable"

/-- Channel constant `CHANNEL_BLEEDING_EDGE` of the script. -/
def CHANNEL_BLEEDING_EDGE : String := "BleedingEdge"

/-- Environment of one run of the script. -/
structure Config where
  /-- Value of the `--tag` command-line argument (default `""`). -/
  tag : String
  /-- Committed content of the manifest, produced on disk by
  `git checkout resources/META-INF/plugin.xml`. -/
  committed : PluginXml
  /-- Result of `git rev-parse HEAD`: the stripped stdout on success,
  `none` when the command exits nonzero. -/
  headSha : Option String
  /-- Whether the `./pants binary ...` build command exits with 0. -/
  buildOk : Bool
  /-- Whether the `mkdir && cp && zip && ...` packaging command exits
  with 0. -/
  packagingOk : Bool
  /-- Exit code returned by the uploader invoked through
  `subprocess.call`. -/
  uploadExit : Int
  /-- Body of the registry page fetched by `curl`. -/
  registryPage : String
deriving DecidableEq, Repr

/-- Substring test: does `needle` occur inside `hay`?  This models the
success of `grep needle` on input `hay`. -/
def strContains (hay needle : String) : Bool :=
  decide (List.IsInfix needle.data hay.data)

/-- Observable outcome of one run of the script. -/
structure RunResult where
  /-- Exit code of the Python process. -/
  exitCode : Nat
  /-- Manifest file content right after the initial
  `git checkout resources/META-INF/plugin.xml` (line 42). -/
  fileAfterInitialCheckout : PluginXml
  /-- Manifest file content when execution reaches line 63 (after the
  possible `tree.write` of the mutated version); `none` when the run
  exits earlier. -/
  fileAfterVersionPhase : Option PluginXml
  /-- Manifest file content when the process terminates. -/
  finalFile : PluginXml
  /-- Value of the `channel` variable, `none` when the run exits before
  the channel is selected. -/
  channel : Option String
  /-- Whether `get_head_sha` (hence `git rev-parse HEAD`) was invoked. -/
  shaCommandRun : Bool
  /-- Value of `version.text` at line 63, the version being released;
  `none` when the run exits earlier. -/
  releasedVersion : Option String
  /-- Value of the `zip_name` variable; `none` when the run exits before
  line 65. -/
  zipName : Option String
  /-- Whether the "version tag not found" error was logged. -/
  loggedVersionMissing : Bool
  /-- Whether the build command was invoked. -/
  buildAttempted : Bool
  /-- Whether the packaging command was invoked. -/
  packagingAttempted : Bool
  /-- Whether the uploader was invoked (`subprocess.call`). -/
  uploadCalled : Bool
  /-- Whether execution reached the verification statement (line 114). -/
  verifyReached : Bool
  /-- Whether the verification statement raised a NameError because the
  name `sha` was unbound. -/
  nameErrorRaised : Bool
  /-- Verification log line: `some true` for "Deploy succeeded.",
  `some false` for "Deploy failed: ...", `none` when nothing was
  logged. -/
  verifyLogged : Option Bool
deriving DecidableEq, Repr

/-- One run of `deploy.py`.  `preRunFile` is the on-disk manifest content
when the process starts; the first effect of the script (line 42) is
`git checkout resources/META-INF/plugin.xml`, which replaces it with
`cfg.committed`, so the run never reads `preRunFile`. -/
def run (cfg : Config) (_preRunFile : PluginXml) : RunResult :=
  -- line 42: subprocess.check_output('git checkout resources/META-INF/plugin.xml')
  let file1 := cfg.committed
  -- lines 44-46: tree = ET.parse(PLUGIN_XML); version = root.find('version')
  match cfg.committed.version with
  | none =>
    -- lines 48-50: logger.error(...); exit(1)
    { exitCode := 1, fileAfterInitialCheckout := file1,
      fileAfterVersionPhase := none, finalFile := file1, channel := none,
      shaCommandRun := false, releasedVersion := none, zipName := none,
      loggedVersionMissing := true, buildAttempted := false,
      packagingAttempted := false, uploadCalled := false,
      verifyReached := false, nameErrorRaised := false, verifyLogged := none }
  | some v0 =>
    -- line 52: if args.tag:  (truthiness of a string = non-emptiness)
    if cfg.tag ≠ "" then
      -- line 53: channel = CHANNEL_STABLE; the name `sha` is never bound
      -- on this branch.
      let zip := "pants_" ++ v0 ++ ".zip"
      if cfg.buildOk then
        if cfg.packagingOk then
          -- finally (line 91): git checkout restores the manifest; then
          -- upload (line 108, exit code ignored); then line 114 evaluates
          -- 'curl {} | grep {}'.format(REPO, sha): NameError, uncaught by
          -- `except subprocess.CalledProcessError`, so the process dies
          -- with exit code 1 and no verification result is logged.
          { exitCode := 1, fileAfterInitialCheckout := file1,
            fileAfterVersionPhase := some file1, finalFile := cfg.committed,
            channel := some CHANNEL_STABLE, shaCommandRun := false,
            releasedVersion := some v0, zipName := some zip,
            loggedVersionMissing := false, buildAttempted := true,
            packagingAttempted := true, uploadCalled := true,
            verifyReached := true, nameErrorRaised := true,
            verifyLogged := none }
        else
          -- packaging check_output raises CalledProcessError; the finally
          -- restores the manifest, then the exception propagates: exit 1.
          { exitCode := 1, fileAfterInitialCheckout := file1,
            fileAfterVersionPhase := some file1, finalFile := cfg.committed,
            channel := some CHANNEL_STABLE, shaCommandRun := false,
            releasedVersion := some v0, zipName := some zip,
            loggedVersionMissing := false, buildAttempted := true,
            packagingAttempted := true, uploadCalled := false,
            verifyReached := false, nameErrorRaised := false,
            verifyLogged := none }
      else
        -- build check_output raises CalledProcessError; finally restores
        -- the manifest, then the exception propagates: exit 1.
        { exitCode := 1, fileAfterInitialCheckout := file1,
          fileAfterVersionPhase := some file1, finalFile := cfg.committed,
          channel := some CHANNEL_STABLE, shaCommandRun := false,
          releasedVersion := some v0, zipName := some zip,
          loggedVersionMissing := false, buildAttempted := true,
          packagingAttempted := false, uploadCalled := false,
          verifyReached := false, nameErrorRaised := false,
          verifyLogged := none }
    else
      -- line 55: channel = CHANNEL_BLEEDING_EDGE
      -- line 57: sha = get_head_sha()
      match cfg.headSha with
      | none =>
        -- get_head_sha: logger.error(...); exit(1).  The manifest has not
        -- been rewritten yet, so it still holds the committed content.
        { exitCode := 1, fileAfterInitialCheckout := file1,
          fileAfterVersionPhase := none, finalFile := file1,
          channel := some CHANNEL_BLEEDING_EDGE, shaCommandRun := true,
          releasedVersion := none, zipName := none,
          loggedVersionMissing := false, buildAttempted := false,
          packagingAttempted := false, uploadCalled := false,
          verifyReached := false, nameErrorRaised := false,
          verifyLogged := none }
      | some sha =>
        -- line 59: version.text = "{}.{}".format(version.text, sha)
        let v1 := v0 ++ "." ++ sha
        -- line 61: tree.write(PLUGIN_XML) rewrites the manifest in place.
        let file2 : PluginXml := { version := some v1, rest := cfg.committed.rest }
        -- line 65: zip_name = 'pants_{}.zip'.format(version.text)
        let zip := "pants_" ++ v1 ++ ".zip"
        if cfg.buildOk then
          if cfg.packagingOk then
            -- finally (line 91) restores the manifest; upload runs, its
            -- exit code ignored (subprocess.call); verification succeeds
            -- exactly when the sha occurs in the fetched page, and either
            -- outcome is only logged: the process exits 0.
            { exitCode := 0, fileAfterInitialCheckout := file1,
              fileAfterVersionPhase := some file2, finalFile := cfg.committed,
              channel := some CHANNEL_BLEEDING_EDGE, shaCommandRun := true,
              releasedVersion := some v1, zipName := some zip,
              loggedVersionMissing := false, buildAttempted := true,
              packagingAttempted := true, uploadCalled := true,
              verifyReached := true, nameErrorRaised := false,
              verifyLogged := some (strContains cfg.registryPage sha) }
          else
            { exitCode := 1, fileAfterInitialCheckout := file1,
              fileAfterVersionPhase := some file2, finalFile := cfg.committed,
              channel := some CHANNEL_BLEEDING_EDGE, shaCommandRun := true,
              releasedVersion := some v1, zipName := some zip,
              loggedVersionMissing := false, buildAttempted := true,
              packagingAttempted := true, uploadCalled := false,
              verifyReached := false, nameErrorRaised := false,
              verifyLogged := none }
        else
          { exitCode := 1, fileAfterInitialCheckout := file1,
            fileAfterVersionPhase := some file2, finalFile := cfg.committed,
            channel := some CHANNEL_BLEEDING_EDGE, shaCommandRun := true,
            releasedVersion := some v1, zipName := some zip,
            loggedVersionMissing := false, buildAttempted := false,
            packagingAttempted := false, uploadCalled := false,
            verifyReached := false, nameErrorRaised := false,
            verifyLogged := none }

/-- Sample committed manifest with version "1.2.3". -/
def committed123 : PluginXml := { version := some "1.2.3", rest := "<idea-plugin/>" }

/-- Sample pre-run on-disk manifest carrying an uncommitted local edit. -/
def dirtyPre : PluginXml := { version := some "9.9.9", rest := "<idea-plugin/>" }

/-- Sample environment for a successful BleedingEdge run. -/
def cfgBE : Config :=
  { tag := "", committed := committed123, headSha := some "abcd123",
    buildOk := true, packagingOk := true, uploadExit := 0,
    registryPage := "releases: abcd123" }

/-- Sample environment for a Stable run whose build and packaging succeed. -/
def cfgStable : Config :=
  { tag := "v1.2.3", committed := committed123, headSha := some "abcd123",
    buildOk := true, packagingOk := true, uploadExit := 0,
    registryPage := "releases: abcd123" }

/-- Sample environment for a BleedingEdge run whose build command fails. -/
def cfgBuildFail : Config :=
  { tag := "", committed := committed123, headSha := some "abcd123",
    buildOk := false, packagingOk := true, uploadExit := 0,
    registryPage := "releases: abcd123" }

/-- Sample environment whose committed manifest has no version element. -/
def cfgNoVersion : Config :=
  { tag := "", committed := { version := none, rest := "<idea-plugin/>" },
    headSha := some "abcd123", buildOk := true, packagingOk := true,
    uploadExit := 0, registryPage := "releases: abcd123" }

/-- C1, counterexample: when the on-disk manifest carries an uncommitted
local edit before the run, the manifest content after the run is the
committed content, not the pre-run content, so the round-trip claim fails
as stated. -/
theorem c1_round_trip_counterexample :
    (run cfgBE dirtyPre).finalFile ≠ dirtyPre := by decide

/-- C1, amended: on every run (success or any failure) the manifest
content when the process terminates equals the committed content — the
content produced by the initial restore — so the round trip holds exactly
when the pre-run on-disk content was the committed one. -/
theorem c1_manifest_restored (cfg : Config) (pre : PluginXml) :
    (run cfg pre).finalFile = cfg.committed := by
  rcases cfg with ⟨tag, ⟨ver, rest⟩, headSha, buildOk, packagingOk, uploadExit, page⟩
  unfold run
  cases ver <;> by_cases ht : tag = "" <;>
    cases headSha <;> cases buildOk <;> cases packagingOk <;> simp [ht]

/-- C2, counterexample: a BleedingEdge run whose manifest has a version
and whose commit-hash resolution succeeds, but whose build command fails,
exits with code 1 — packaging failure is not "logged only". -/
theorem c2_exit_code_counterexample :
    cfgBuildFail.committed.version.isSome = true ∧
      cfgBuildFail.headSha.isSome = true ∧
      (run cfgBuildFail committed123).exitCode = 1 := by decide

/-- C2, amended: the process exits with code 0 exactly when the channel is
BleedingEdge (empty tag), the manifest has a version element, commit-hash
resolution succeeds, and the build and packaging commands succeed; in every
other case (missing version, failed hash resolution, build or packaging
failure, or any Stable run, which dies of a NameError at the verification
step) it exits with code 1.  Upload and verification failures on the
BleedingEdge path are logged only. -/
theorem c2_exit_code (cfg : Config) (pre : PluginXml) :
    (run cfg pre).exitCode = 0 ↔
      (cfg.tag = "" ∧ cfg.committed.version.isSome = true ∧
        cfg.headSha.isSome = true ∧ cfg.buildOk = true ∧
        cfg.packagingOk = true) := by
  rcases cfg with ⟨tag, ⟨ver, rest⟩, headSha, buildOk, packagingOk, uploadExit, page⟩
  unfold run
  cases ver <;> by_cases ht : tag = "" <;>
    cases headSha <;> cases buildOk <;> cases packagingOk <;> simp [ht]

/-- C3: the release channel is Stable exactly when a non-empty `--tag`
was supplied, and BleedingEdge when the tag is empty (the default),
whenever the run proceeds far enough to select a channel (version element
present). -/
theorem c3_channel_from_tag (cfg : Config) (pre : PluginXml)
    (h : cfg.committed.version.isSome = true) :
    (cfg.tag ≠ "" → (run cfg pre).channel = some CHANNEL_STABLE) ∧
      (cfg.tag = "" → (run cfg pre).channel = some CHANNEL_BLEEDING_EDGE) := by
  rcases cfg with ⟨tag, ⟨ver, rest⟩, headSha, buildOk, packagingOk, uploadExit, page⟩
  unfold run
  cases ver <;> by_cases ht : tag = "" <;>
    cases headSha <;> cases buildOk <;> cases packagingOk <;>
    simp_all [ht]

/-- C3 witness: a non-empty tag yields the Stable channel and an empty tag
yields the BleedingEdge channel on concrete runs. -/
theorem c3_channel_witness :
    (run cfgStable dirtyPre).channel = some CHANNEL_STABLE ∧
      (run cfgBE dirtyPre).channel = some CHANNEL_BLEEDING_EDGE :=
  ⟨(c3_channel_from_tag cfgStable dirtyPre (by decide)).1 (by decide),
    (c3_channel_from_tag cfgBE dirtyPre (by decide)).2 rfl⟩

/-- C4: on the BleedingEdge channel the released version is the manifest
version followed by "." and the commit hash, and the manifest on disk is
rewritten with that mutated version (rest of the document unchanged); on
the Stable channel the released version is the manifest version and the
manifest is left untouched at that point. -/
theorem c4_version_mutation (cfg : Config) (pre : PluginXml) (v0 : String)
    (h : cfg.committed.version = some v0) :
    (∀ sha, cfg.tag = "" → cfg.headSha = some sha →
        (run cfg pre).releasedVersion = some (v0 ++ "." ++ sha) ∧
          (run cfg pre).fileAfterVersionPhase =
            some { version := some (v0 ++ "." ++ sha), rest := cfg.committed.rest }) ∧
      (cfg.tag ≠ "" →
        (run cfg pre).releasedVersion = some v0 ∧
          (run cfg pre).fileAfterVersionPhase = some cfg.committed) := by
  rcases cfg with ⟨tag, ⟨ver, rest⟩, headSha, buildOk, packagingOk, uploadExit, page⟩
  unfold run
  cases ver <;> by_cases ht : tag = "" <;>
    cases headSha <;> cases buildOk <;> cases packagingOk <;>
    simp_all [ht]

/-- C4 witness: with manifest version "1.2.3" and commit "abcd123", a
BleedingEdge run releases "1.2.3.abcd123" and a Stable run releases
"1.2.3". -/
theorem c4_version_witness :
    (run cfgBE dirtyPre).releasedVersion = some "1.2.3.abcd123" ∧
      (run cfgStable dirtyPre).releasedVersion = some "1.2.3" :=
  ⟨((c4_version_mutation cfgBE dirtyPre "1.2.3" rfl).1 "abcd123" rfl rfl).1,
    ((c4_version_mutation cfgStable dirtyPre "1.2.3" rfl).2 (by decide)).1⟩

/-- C5, counterexample: on manifest version "1.2.3" and commit "abcd123"
on BleedingEdge the artifact name is "pants_1.2.3.abcd123.zip", not
"prefix_1.2.3.abcd123.zip" as the claim's example states. -/
theorem c5_artifact_name_counterexample :
    (run cfgBE dirtyPre).zipName = some "pants_1.2.3.abcd123.zip" ∧
      "pants_1.2.3.abcd123.zip" ≠ "prefix_1.2.3.abcd123.zip" := by decide

/-- C5, amended: the artifact name is deterministically derived from the
(possibly mutated) released version as `pants_<version>.zip` — the
artifact prefix is the literal "pants". -/
theorem c5_artifact_name (cfg : Config) (pre : PluginXml) (v : String)
    (h : (run cfg pre).releasedVersion = some v) :
    (run cfg pre).zipName = some ("pants_" ++ v ++ ".zip") := by
  rcases cfg with ⟨tag, ⟨ver, rest⟩, headSha, buildOk, packagingOk, uploadExit, page⟩
  unfold run at h ⊢
  cases ver <;> by_cases ht : tag = "" <;>
    cases headSha <;> cases buildOk <;> cases packagingOk <;>
    simp_all [ht]

/-- C5 witness: the concrete BleedingEdge run builds
"pants_" ++ "1.2.3.abcd123" ++ ".zip". -/
theorem c5_artifact_witness :
    (run cfgBE dirtyPre).zipName = some ("pants_" ++ "1.2.3.abcd123" ++ ".zip") :=
  c5_artifact_name cfgBE dirtyPre "1.2.3.abcd123" (by decide)

/-- C6: when the manifest has no version element the process logs the
missing-version error and exits with code 1, invoking neither the build,
nor the packaging, nor the upload command. -/
theorem c6_missing_version (cfg : Config) (pre : PluginXml)
    (h : cfg.committed.version = none) :
    (run cfg pre).exitCode = 1 ∧
      (run cfg pre).loggedVersionMissing = true ∧
      (run cfg pre).buildAttempted = false ∧
      (run cfg pre).packagingAttempted = false ∧
      (run cfg pre).uploadCalled = false := by
  rcases cfg with ⟨tag, ⟨ver, rest⟩, headSha, buildOk, packagingOk, uploadExit, page⟩
  unfold run
  cases ver <;> simp_all

/-- C6 witness: the concrete version-less run exits 1 without packaging or
uploading. -/
theorem c6_missing_version_witness :
    (run cfgNoVersion dirtyPre).exitCode = 1 ∧
      (run cfgNoVersion dirtyPre).loggedVersionMissing = true ∧
      (run cfgNoVersion dirtyPre).buildAttempted = false ∧
      (run cfgNoVersion dirtyPre).packagingAttempted = false ∧
      (run cfgNoVersion dirtyPre).uploadCalled = false :=
  c6_missing_version cfgNoVersion dirtyPre rfl

/-- C7: on any run that invokes the uploader, the whole observable outcome
of the run — in particular the process exit code — is the same whatever
exit code the uploader returns, and execution continues to the
verification step. -/
theorem c7_upload_exit_ignored (cfg : Config) (pre : PluginXml) (e : Int)
    (h : (run cfg pre).uploadCalled = true) :
    run { cfg with uploadExit := e } pre = run cfg pre ∧
      (run cfg pre).verifyReached = true := by
  rcases cfg with ⟨tag, ⟨ver, rest⟩, headSha, buildOk, packagingOk, uploadExit, page⟩
  unfold run at h ⊢
  cases ver <;> by_cases ht : tag = "" <;>
    cases headSha <;> cases buildOk <;> cases packagingOk <;>
    simp_all [ht]

/-- C7 witness: replacing the uploader exit code 0 of the concrete
BleedingEdge run by 137 changes nothing, and that run reaches
verification. -/
theorem c7_upload_exit_witness :
    run { cfgBE with uploadExit := 137 } dirtyPre = run cfgBE dirtyPre ∧
      (run cfgBE dirtyPre).verifyReached = true :=
  c7_upload_exit_ignored cfgBE dirtyPre 137 rfl

/-- C8, counterexample: a Stable run that reaches the verification step
logs no verification result at all and exits with code 1 (the NameError),
so verification is not in every case a logged pure function of the page
content that leaves the exit code alone. -/
theorem c8_verification_counterexample :
    (run cfgStable dirtyPre).verifyReached = true ∧
      (run cfgStable dirtyPre).verifyLogged = none ∧
      (run cfgStable dirtyPre).exitCode = 1 := by decide

/-- C8, amended: on every BleedingEdge run that reaches verification, the
logged verification outcome is success exactly when the commit hash occurs
in the fetched registry page, the outcome is only logged, and the process
exit code is 0 either way; on Stable runs the verification step instead
aborts with a NameError. -/
theorem c8_verification (cfg : Config) (pre : PluginXml) (sha : String)
    (h1 : cfg.tag = "") (h2 : cfg.committed.version.isSome = true)
    (h3 : cfg.headSha = some sha) (h4 : cfg.buildOk = true)
    (h5 : cfg.packagingOk = true) :
    (run cfg pre).verifyLogged = some (strContains cfg.registryPage sha) ∧
      (run cfg pre).exitCode = 0 := by
  rcases cfg with ⟨tag, ⟨ver, rest⟩, headSha, buildOk, packagingOk, uploadExit, page⟩
  unfold run
  cases ver <;> simp_all

/-- C8 witness: the concrete BleedingEdge run, whose registry page contains
the commit hash, logs success and exits 0. -/
theorem c8_verification_witness :
    (run cfgBE dirtyPre).verifyLogged = some true ∧
      (run cfgBE dirtyPre).exitCode = 0 := by
  have h := c8_verification cfgBE dirtyPre "abcd123" rfl rfl rfl rfl rfl
  exact ⟨h.1.trans (by decide), h.2⟩

/-- C9: the run never depends on the pre-run on-disk manifest content —
the initial checkout replaces it with the committed content before the
manifest is ever read — so uncommitted local edits are discarded and the
version used is the committed one. -/
theorem c9_pre_run_content_ignored (cfg : Config) (pre pre' : PluginXml) :
    run cfg pre = run cfg pre' ∧
      (run cfg pre).fileAfterInitialCheckout = cfg.committed := by
  refine ⟨rfl, ?_⟩
  rcases cfg with ⟨tag, ⟨ver, rest⟩, headSha, buildOk, packagingOk, uploadExit, page⟩
  unfold run
  cases ver <;> by_cases ht : tag = "" <;>
    cases headSha <;> cases buildOk <;> cases packagingOk <;> simp [ht]

/-- C10: on every Stable run (non-empty tag, version present) the commit
hash is never resolved, and every such run whose build and packaging
succeed reaches the verification statement, raises a NameError there,
logs no verification result, and exits with code 1. -/
theorem c10_stable_name_error (cfg : Config) (pre : PluginXml)
    (h1 : cfg.tag ≠ "") (h2 : cfg.committed.version.isSome = true) :
    (run cfg pre).shaCommandRun = false ∧
      (cfg.buildOk = true → cfg.packagingOk = true →
        (run cfg pre).verifyReached = true ∧
          (run cfg pre).nameErrorRaised = true ∧
          (run cfg pre).exitCode = 1 ∧
          (run cfg pre).verifyLogged = none) := by
  rcases cfg with ⟨tag, ⟨ver, rest⟩, headSha, buildOk, packagingOk, uploadExit, page⟩
  unfold run
  cases ver <;> by_cases ht : tag = "" <;>
    cases headSha <;> cases buildOk <;> cases packagingOk <;>
    simp_all [ht]

/-- C10 witness: the concrete Stable run resolves no commit hash, reaches
verification, raises the NameError and exits 1 without logging a
verification result. -/
theorem c10_stable_name_error_witness :
    (run cfgStable dirtyPre).shaCommandRun = false ∧
      (run cfgStable dirtyPre).verifyReached = true ∧
      (run cfgStable dirtyPre).nameErrorRaised = true ∧
      (run cfgStable dirtyPre).exitCode = 1 ∧
      (run cfgStable dirtyPre).verifyLogged = none :=
  have h := c10_stable_name_error cfgStable dirtyPre (by decide) (by decide)
  ⟨h.1, h.2 rfl rfl⟩

end Deploy
